import Mathlib

/-!
Shallow embedding of the vsnlogger configuration / logger lifecycle subsystem
(files config_t.cpp, sinks_t.cpp, logger.cpp / logger.inl, formatters_t.cpp).

Modelling conventions:
* C++ `std::string` values are modelled as `List Char` (`Str`).
* `std::map<std::string, T>` is modelled as an association list; lookups and
  size queries are faithful, iteration order is the insertion order of the
  model (the claims below never depend on map iteration order).
* The process-wide mutable globals (`g_sinkAllocationCount`, the spdlog
  registry, `ms_defaultInstance`, `ms_allocationCount`) are gathered into the
  explicit state record `LoggerWorld` that every operation threads through.
* I/O effects (opening files, the system clock, directory creation, sink
  construction that may throw) are made explicit: a configuration file is its
  list of lines, the timestamp is a parameter, and each sink factory takes a
  boolean `ok` standing for "the underlying constructor did not throw".
-/

/-- C++ `std::string`, modelled as a list of characters. -/
abbrev Str := List Char

/-- Result codes from error_codes.h (`enum class E_Result`). -/
inductive E_Result where
  | E_SUCCESS
  | E_INVALID_PARAMETER
  | E_RESOURCE_UNAVAILABLE
  | E_ALLOCATION_FAILED
  | E_PERMISSION_DENIED
  | E_PATH_CREATION_FAILED
  | E_NOT_INITIALIZED
  | E_CONFIG_ERROR
  | E_INVALID_STATE
  | E_FILE_ERROR
  | E_UNKNOWN_ERROR
  deriving DecidableEq, Repr

/-- Severity levels from logger_t.h (`enum class E_LogLevel`). -/
inductive E_LogLevel where
  | E_TRACE
  | E_DEBUG
  | E_INFO
  | E_WARN
  | E_ERROR
  | E_CRITICAL
  | E_OFF
  deriving DecidableEq, Repr

/-- First-match association-list lookup, the model of `std::map::find`. -/
def assocFind {α : Type} (k : Str) : List (Str × α) → Option α
  | [] => none
  | (k', v) :: rest => if k = k' then some v else assocFind k rest

/-- Model of `map[k] = v`: replace the value when the key is present,
otherwise add the entry. -/
def assocUpdate {α : Type} (k : Str) (v : α) : List (Str × α) → List (Str × α)
  | [] => [(k, v)]
  | (k', v') :: rest =>
      if k = k' then (k, v) :: rest else (k', v') :: assocUpdate k v rest

/-- The section table of LogConfig (`m_configData`):
section name → (key → value). -/
abbrev ConfigData := List (Str × List (Str × Str))

/-- LogConfig state: the section table plus the static section counter
`g_sectionCount` (the constructor creates the "global" section and sets the
counter to 1). -/
structure ConfigStore where
  data : ConfigData
  sectionCount : Nat
  deriving DecidableEq, Repr

/-- The store as built by the LogConfig constructor: only the empty
"global" section, counter 1. `gs` generalizes over entries already loaded
into "global". -/
def freshStore (gs : List (Str × Str)) : ConfigStore :=
  { data := [("global".toList, gs)], sectionCount := 1 }

/-- `LogConfig::GetString` (config_t.cpp): validate parameters, look in the
named section, fall back to "global", finally the caller default. -/
def GetString (cfg : ConfigData) (sec key dflt : Str) : Str :=
  if sec = [] ∨ key = [] then dflt
  else
    match (assocFind sec cfg).bind (assocFind key) with
    | some v => v
    | none =>
        if sec ≠ "global".toList then
          match (assocFind ("global".toList) cfg).bind (assocFind key) with
          | some v => v
          | none => dflt
        else dflt

/-- Characters accepted by `isspace` in the C locale. -/
def isCSpace (c : Char) : Bool :=
  c = ' ' ∨ c = '\t' ∨ c = '\n' ∨ c = '\x0b' ∨ c = '\x0c' ∨ c = '\r'

/-- Decimal value of a digit run. -/
def digitsToNat (l : Str) : Nat :=
  l.foldl (fun acc c => acc * 10 + (c.toNat - 48)) 0

/-- `std::stoi`: skip leading whitespace, optional sign, a non-empty digit
run (trailing junk ignored); `none` models the invalid-argument and
out-of-range exceptions, which `GetInt32` catches. -/
def stoi32? (s : Str) : Option Int :=
  let s1 := s.dropWhile isCSpace
  let signed : Bool × Str :=
    match s1 with
    | '-' :: rest => (true, rest)
    | '+' :: rest => (false, rest)
    | rest => (false, rest)
  let ds := signed.2.takeWhile Char.isDigit
  if ds = [] then none
  else
    let v : Int := if signed.1 then -(digitsToNat ds : Int) else (digitsToNat ds : Int)
    if v < -2147483648 ∨ 2147483647 < v then none else some v

/-- `LogConfig::GetInt32`: parse via stoi, fall back to the default on any
failure. -/
def GetInt32 (cfg : ConfigData) (sec key : Str) (dflt : Int) : Int :=
  let v := GetString cfg sec key []
  if v = [] then dflt else (stoi32? v).getD dflt

/-- `std::tolower` in the C locale, as applied by GetBool. -/
def asciiToLower (c : Char) : Char :=
  if 'A' ≤ c ∧ c ≤ 'Z' then Char.ofNat (c.toNat + 32) else c

/-- `LogConfig::GetBool`: lower-case the stored value and compare with the
accepted true spellings. -/
def GetBool (cfg : ConfigData) (sec key : Str) (dflt : Bool) : Bool :=
  let v := GetString cfg sec key []
  if v = [] then dflt
  else
    let lv := v.map asciiToLower
    if lv = "true".toList ∨ lv = "yes".toList ∨ lv = "1".toList ∨ lv = "on".toList
    then true else false

/-- Whitespace trimmed by LoadFromFile (`find_first_not_of(" \t")`). -/
def isTrimChar (c : Char) : Bool := c = ' ' ∨ c = '\t'

/-- Trim leading and trailing spaces/tabs. -/
def trimWS (l : Str) : Str :=
  ((l.dropWhile isTrimChar).reverse.dropWhile isTrimChar).reverse

/-- Section-header recognition: `regex_match` against `\[(.*)\]` succeeds
exactly on lines that start with `[` and end with `]`, the greedy group
being everything in between. -/
def parseHeader (l : Str) : Option Str :=
  match l with
  | '[' :: rest =>
      if rest.getLast? = some ']' then some rest.dropLast else none
  | _ => none

/-- Key-value recognition: `regex_match` against `([^=]+)=([^=]*)` succeeds
exactly on lines holding a single `=` that is not the first character. -/
def parseKV (l : Str) : Option (Str × Str) :=
  match l.splitOn '=' with
  | [k, v] => if k = [] then none else some (k, v)
  | _ => none

/-- Capacity constants of LogConfig (config.h). -/
def k_maxSections : Nat := 32

/-- Maximum entries per section (config.h). -/
def k_maxEntriesPerSection : Nat := 64

/-- Maximum key length (config.h). -/
def k_maxKeyLength : Nat := 64

/-- Maximum value length (config.h). -/
def k_maxValueLength : Nat := 256

/-- The line loop of `LogConfig::LoadFromFile` (config_t.cpp, lines 386-470):
skip blank/comment lines, trim, handle section headers against the section
cap, store trimmed and truncated key-value pairs under the current section. -/
def loadLines : List Str → Str → ConfigStore → E_Result × ConfigStore
  | [], _, st => (.E_SUCCESS, st)
  | line :: rest, current, st =>
    if line = [] ∨ line.head? = some '#' ∨ line.head? = some ';' then
      loadLines rest current st
    else
      let t := trimWS line
      if t = [] then loadLines rest current st
      else
        match parseHeader t with
        | some name =>
            if k_maxSections ≤ st.sectionCount then (.E_RESOURCE_UNAVAILABLE, st)
            else
              match assocFind name st.data with
              | some _ => loadLines rest name st
              | none =>
                  loadLines rest name
                    { data := st.data ++ [(name, [])],
                      sectionCount := st.sectionCount + 1 }
        | none =>
            match parseKV t with
            | none => loadLines rest current st
            | some (k0, v0) =>
                let k := trimWS k0
                let v := trimWS v0
                if k = [] then loadLines rest current st
                else
                  let k := k.take k_maxKeyLength
                  let v := v.take k_maxValueLength
                  match assocFind current st.data with
                  | some entries =>
                      if k_maxEntriesPerSection ≤ entries.length then
                        loadLines rest current st
                      else
                        loadLines rest current
                          { st with data := assocUpdate current (assocUpdate k v entries) st.data }
                  | none =>
                      loadLines rest current
                        { st with data := st.data ++ [(current, [(k, v)])] }

/-- `LogConfig::LoadFromFile` on an already-opened file, given as its list
of lines (the empty-path and cannot-open branches return
E_INVALID_PARAMETER / E_FILE_ERROR before the loop and are I/O). -/
def LoadFromFile (lines : List Str) (st : ConfigStore) : E_Result × ConfigStore :=
  loadLines lines ("global".toList) st

/-- Build the text of a section-header line for a section name. -/
def hdr (n : Str) : Str := '[' :: (n ++ [']'])

/-- Format kinds from formatters.h (`enum class E_FormatType`). -/
inductive E_FormatType where
  | E_JSON
  | E_CONSOLE
  | E_SIMPLE
  | E_MINIMAL
  | E_COLORED
  | E_DETAILED
  | E_DEFAULT
  deriving DecidableEq, Repr

/-- `GetPattern(E_FormatType, std::string&)` (formatters_t.cpp lines
315-360): a total switch writing the pattern and returning E_SUCCESS. -/
def GetPatternType (t : E_FormatType) : E_Result × Str :=
  (.E_SUCCESS,
    match t with
    | .E_JSON =>
        ("\x7b\"timestamp\":\"%Y-%m-%dT%H:%M:%S.%fZ\",\"level\":\"%^%l%$\",\"logger\":\"%n\",\"thread\":\"%t\",\"message\":\"%v\"\x7d").toList
    | .E_CONSOLE => ("%Y-%m-%d %H:%M:%S.%f %z [%^%l%$] [%n] [%t] %v").toList
    | .E_SIMPLE => ("[%Y-%m-%d %H:%M:%S.%f] [%^%l%$] %v").toList
    | .E_MINIMAL => ("%^%l%$ %v").toList
    | .E_COLORED =>
        ("%Y-%m-%d %H:%M:%S.%f %z [%^%-8l%$] [%-10n] [%-5P %-5t] [%g:%#] %v").toList
    | .E_DETAILED =>
        ("%Y-%m-%d %H:%M:%S.%f %z [%^%-8l%$] [%-10n] [%-5P %-5t] [%g:%#:%!()] %v").toList
    | .E_DEFAULT => ("%Y-%m-%d %H:%M:%S.%f %z [%^%l%$] [%n] [%t] %v").toList)

/-- `GetPattern(const std::string&, std::string&)` (formatters_t.cpp lines
362-393): reject the empty name, map known names to their format kind,
anything else to E_DEFAULT, then delegate. `Except.error` models the error
return that leaves the out-parameter unwritten. -/
def GetPatternName (formatName : Str) : Except E_Result Str :=
  if formatName = [] then .error .E_INVALID_PARAMETER
  else
    let formatType : E_FormatType :=
      if formatName = "json".toList then .E_JSON
      else if formatName = "console".toList then .E_CONSOLE
      else if formatName = "simple".toList then .E_SIMPLE
      else if formatName = "minimal".toList then .E_MINIMAL
      else if formatName = "colored".toList then .E_COLORED
      else if formatName = "detailed".toList then .E_DETAILED
      else .E_DEFAULT
    match GetPatternType formatType with
    | (.E_SUCCESS, p) => .ok p
    | (r, _) => .error r

/-- Lower-case hex digit, as printed by `snprintf("\u%04x", ...)`. -/
def hexDigitChar (n : Nat) : Char :=
  if n < 10 then Char.ofNat (48 + n) else Char.ofNat (87 + n)

/-- Per-character behaviour of `JsonEscapeString` (formatters_t.cpp lines
61-99): named short escapes for quote, backslash, \n, \r, \t, \b, \f;
`\u00XX` for the remaining control characters; everything else verbatim. -/
def jsonEscapeChar (c : Char) : Str :=
  if c = '"' then ['\\', '"']
  else if c = '\\' then ['\\', '\\']
  else if c = '\n' then ['\\', 'n']
  else if c = '\r' then ['\\', 'r']
  else if c = '\t' then ['\\', 't']
  else if c = '\x08' then ['\\', 'b']
  else if c = '\x0c' then ['\\', 'f']
  else if c.toNat < 32 then
    ['\\', 'u', '0', '0', hexDigitChar (c.toNat / 16), hexDigitChar (c.toNat % 16)]
  else [c]

/-- `JsonEscapeString`: the escape loop over the input characters. -/
def jsonEscapeString : Str → Str
  | [] => []
  | c :: cs => jsonEscapeChar c ++ jsonEscapeString cs

/-- One additional field rendered by the ToJson field loop. -/
def jsonField (kv : Str × Str) : Str :=
  (",\"").toList ++ jsonEscapeString kv.1 ++ ("\":\"").toList ++
    jsonEscapeString kv.2 ++ ("\"").toList

/-- `ToJson` (formatters_t.cpp lines 107-215) with the clock made explicit:
`timestamp` is the string GetCurrentTimestamp would have produced. The
additional-field map is given as its entry list; at most 32 fields are
rendered (escaping in the model is total, so none are skipped). -/
def ToJson (message level component : Str) (additionalFields : List (Str × Str))
    (timestamp : Str) : Except E_Result Str :=
  if message = [] ∨ level = [] then .error .E_INVALID_PARAMETER
  else
    .ok <|
      ("\x7b").toList ++
      ("\"timestamp\":\"").toList ++ timestamp ++ ("\",").toList ++
      ("\"level\":\"").toList ++ jsonEscapeString level ++ ("\",").toList ++
      (if component ≠ [] then
        ("\"component\":\"").toList ++ jsonEscapeString component ++ ("\",").toList
       else []) ++
      ("\"message\":\"").toList ++ jsonEscapeString message ++ ("\"").toList ++
      (additionalFields.take 32).flatMap jsonField ++
      ("\x7d").toList

/-- Descriptor of a sink constructed by the factories in sinks_t.cpp. -/
inductive Sink where
  | console (colored : Bool)
  | rotatingFile (maxSize maxFiles : Nat)
  | basicFile
  | syslog (ident : Str)
  | null
  deriving DecidableEq, Repr

/-- Process-wide cap on sink allocations (`k_maxSinkAllocations`). -/
def k_maxSinkAllocations : Nat := 64

/-- `CreateConsoleSink` (sinks_t.cpp lines 563-589): refuse at the cap,
otherwise construct (the `ok` flag is the constructor not throwing) and
increment the counter. The first component is the returned handle, the
second the counter after the call. -/
def CreateConsoleSink (colored : Bool) (ok : Bool) (count : Nat) : Option Sink × Nat :=
  if k_maxSinkAllocations ≤ count then (none, count)
  else if ok then (some (.console colored), count + 1)
  else (none, count)

/-- Default rotation size applied by CreateFileSink when `maxSize` is 0,
then clamped to the 1 GiB upper bound. -/
def normMaxSize (s : Nat) : Nat :=
  let s1 := if s = 0 then 10485760 else s
  if 1073741824 < s1 then 1073741824 else s1

/-- Default rotation count applied by CreateFileSink when `maxFiles` is 0,
then clamped to the upper bound of 100. -/
def normMaxFiles (f : Nat) : Nat :=
  let f1 := if f = 0 then 5 else f
  if 100 < f1 then 100 else f1

/-- `CreateFileSink` (sinks_t.cpp lines 591-656): reject an empty filename,
refuse at the cap, create the parent directory and construct (`ok` models
both throwing), normalizing the rotation limits first. -/
def CreateFileSink (filename : Str) (rotate : Bool) (maxSize maxFiles : Nat)
    (ok : Bool) (count : Nat) : Option Sink × Nat :=
  if filename = [] then (none, count)
  else if k_maxSinkAllocations ≤ count then (none, count)
  else if ok then
    (some (if rotate then Sink.rotatingFile (normMaxSize maxSize) (normMaxFiles maxFiles)
           else Sink.basicFile),
     count + 1)
  else (none, count)

/-- `CreateSyslogSink` (sinks_t.cpp lines 658-693): refuse at the cap,
default an empty ident to "vsnlogger", truncate it to 32 characters,
construct and count. The syslog option/facility integers do not influence
the modelled state. -/
def CreateSyslogSink (ident : Str) (_syslogOption _syslogFacility : Int)
    (_enableFormatting : Bool) (ok : Bool) (count : Nat) : Option Sink × Nat :=
  if k_maxSinkAllocations ≤ count then (none, count)
  else if ok then
    let ident := if ident = [] then "vsnlogger".toList else ident
    let ident := if 32 < ident.length then ident.take 32 else ident
    (some (.syslog ident), count + 1)
  else (none, count)

/-- `CreateNullSink` (sinks_t.cpp lines 695-716). -/
def CreateNullSink (ok : Bool) (count : Nat) : Option Sink × Nat :=
  if k_maxSinkAllocations ≤ count then (none, count)
  else if ok then (some .null, count + 1)
  else (none, count)

/-- The push steps of CreateMultiSink: push a successfully created sink
while fewer than 8 sinks are collected. -/
def pushSinkOpt (sinks : List Sink) (res : Option Sink) : List Sink :=
  match res with
  | some s => if sinks.length < 8 then sinks ++ [s] else sinks
  | none => sinks

/-- `CreateMultiSink` (sinks_t.cpp lines 718-759): console, file (called
with rotate = 0, maxSize = 0, maxFiles = true, i.e. 1), syslog, then a
default console sink when nothing was collected. One `ok` flag per possible
construction. -/
def CreateMultiSink (console : Bool) (logFile : Str) (syslog : Bool)
    (ok1 ok2 ok3 ok4 : Bool) (count : Nat) : List Sink × Nat :=
  let r1 := if console then CreateConsoleSink true ok1 count else (none, count)
  let sinks1 := pushSinkOpt [] r1.1
  let r2 := if logFile ≠ [] then CreateFileSink logFile false 0 1 ok2 r1.2
            else (none, r1.2)
  let sinks2 := pushSinkOpt sinks1 r2.1
  let r3 := if syslog then CreateSyslogSink ("vsnlogger".toList) 0 0 true ok3 r2.2
            else (none, r2.2)
  let sinks3 := pushSinkOpt sinks2 r3.1
  let r4 := if sinks3 = [] then CreateConsoleSink true ok4 r3.2 else (none, r3.2)
  let sinks4 := match r4.1 with | some s => sinks3 ++ [s] | none => sinks3
  (sinks4, r4.2)

/-- The mutable process state threaded through the logger subsystem:
`g_sinkAllocationCount`, the spdlog logger registry (as registered names),
`Logger::ms_allocationCount`, and whether `ms_defaultInstance` is set. -/
structure LoggerWorld where
  sinkCount : Nat
  registry : List Str
  loggerAllocCount : Nat
  defaultSet : Bool
  deriving DecidableEq, Repr

/-- Maximum sinks per logger (`Logger::k_maxSinks`). -/
def k_maxSinks : Nat := 8

/-- Maximum format-string length (`Logger::k_maxMessageLength`). -/
def k_maxMessageLength : Nat := 256

/-- The log-file path computation of `Logger::Initialize` (logger.cpp lines
162-177): the length bound checks directory + application name + the ".log"
extension + 2 separators, then the path appends the application name twice. -/
def computeLogFilePath (dir app : Str) : Option Str :=
  if 255 < dir.length + app.length + 4 + 2 then none
  else some (dir ++ '/' :: (app ++ '/' :: (app ++ ".log".toList)))

/-- The registry-lookup and sink-building tail of `Logger::Initialize`
(logger.cpp lines 179-293): reuse a registered logger of the same name, or
build the configured sink set, register the new logger and promote it to
default. Pattern and level setting touch no modelled state. -/
def buildSinksAndRegister (w : LoggerWorld) (appName : Str)
    (useConsole useSyslog useColors : Bool) (fileMaxSize fileMaxCount : Int)
    (logFilePath : Option Str) : E_Result × LoggerWorld :=
  if appName ∈ w.registry then (.E_SUCCESS, { w with defaultSet := true })
  else
    let r1 := if useConsole then CreateConsoleSink useColors true w.sinkCount
              else (none, w.sinkCount)
    let vec1 := r1.1.toList
    let r2 := match logFilePath with
              | some p =>
                  if p ≠ [] then
                    CreateFileSink p true ((fileMaxSize % (2 : Int) ^ 64).toNat)
                      ((fileMaxCount % (2 : Int) ^ 64).toNat) true r1.2
                  else (none, r1.2)
              | none => (none, r1.2)
    let vec2 := vec1 ++ r2.1.toList
    let r3 := if useSyslog then CreateSyslogSink ("vsnlogger".toList) 0 0 true true r2.2
              else (none, r2.2)
    let vec3 := vec2 ++ r3.1.toList
    let r4 := if vec3 = [] then CreateConsoleSink useColors true r3.2
              else (none, r3.2)
    let vec4 := vec3 ++ r4.1.toList
    let _sinkSet := vec4.take k_maxSinks
    (.E_SUCCESS,
     { sinkCount := r4.2, registry := appName :: w.registry,
       loggerAllocCount := w.loggerAllocCount, defaultSet := true })

/-- `Logger::Initialize` (logger.cpp lines 116-298). `cfg` is the LogConfig
table after the LoadFromEnv merge (environment loading only mutates that
table). Rejects empty arguments, resolves the configured toggles, checks
the log-file path bound, then reuses or builds the named logger. -/
def Initialize (cfg : ConfigData) (w : LoggerWorld) (appName logDir : Str)
    (level : Int) : E_Result × LoggerWorld :=
  if appName = [] ∨ logDir = [] then (.E_INVALID_PARAMETER, w)
  else
    let configuredLogDir := GetString cfg ("global".toList) ("log_dir".toList) logDir
    let useConsole := GetBool cfg appName ("console_output".toList) true
    let useFile := GetBool cfg appName ("file_output".toList) true
    let useSyslog := GetBool cfg appName ("syslog_output".toList) false
    let _patternName := GetString cfg appName ("log_pattern".toList) ("colored".toList)
    let useColors := GetBool cfg appName ("use_colors".toList) true
    let fileMaxSize := GetInt32 cfg appName ("max_file_size".toList) 10485760
    let fileMaxCount := GetInt32 cfg appName ("max_files".toList) 5
    let _configuredLevel := GetInt32 cfg appName ("log_level".toList) level
    if useFile then
      match computeLogFilePath configuredLogDir appName with
      | none => (.E_INVALID_PARAMETER, w)
      | some p =>
          buildSinksAndRegister w appName useConsole useSyslog useColors
            fileMaxSize fileMaxCount (some p)
    else
      buildSinksAndRegister w appName useConsole useSyslog useColors
        fileMaxSize fileMaxCount none

/-- `Logger::LogWithLocation` (logger.inl lines 15-46) and the severity
wrappers: `hasLogger` is `m_logger` being non-null, `fmt = none` a null
format pointer, `engineThrows` the underlying spdlog call raising. The
second component records whether the underlying engine was invoked. -/
def LogWithLocation (hasLogger : Bool) (_level : E_LogLevel) (fmt : Option Str)
    (engineThrows : Bool) : E_Result × Bool :=
  if ¬hasLogger then (.E_NOT_INITIALIZED, false)
  else
    match fmt with
    | none => (.E_INVALID_PARAMETER, false)
    | some f =>
        if k_maxMessageLength < f.length then (.E_INVALID_PARAMETER, false)
        else if engineThrows then (.E_UNKNOWN_ERROR, true)
        else (.E_SUCCESS, true)

/-- `Logger::Trace` (logger.inl). -/
def Trace (hasLogger : Bool) (fmt : Option Str) (engineThrows : Bool) : E_Result × Bool :=
  LogWithLocation hasLogger .E_TRACE fmt engineThrows

/-- `Logger::Debug` (logger.inl). -/
def Debug (hasLogger : Bool) (fmt : Option Str) (engineThrows : Bool) : E_Result × Bool :=
  LogWithLocation hasLogger .E_DEBUG fmt engineThrows

/-- `Logger::Info` (logger.inl). -/
def Info (hasLogger : Bool) (fmt : Option Str) (engineThrows : Bool) : E_Result × Bool :=
  LogWithLocation hasLogger .E_INFO fmt engineThrows

/-- `Logger::Warn` (logger.inl). -/
def Warn (hasLogger : Bool) (fmt : Option Str) (engineThrows : Bool) : E_Result × Bool :=
  LogWithLocation hasLogger .E_WARN fmt engineThrows

/-- `Logger::Error` (logger.inl). -/
def ErrorLog (hasLogger : Bool) (fmt : Option Str) (engineThrows : Bool) : E_Result × Bool :=
  LogWithLocation hasLogger .E_ERROR fmt engineThrows

/-- `Logger::Critical` (logger.inl). -/
def Critical (hasLogger : Bool) (fmt : Option Str) (engineThrows : Bool) : E_Result × Bool :=
  LogWithLocation hasLogger .E_CRITICAL fmt engineThrows

/-- Operations of the sink-factory / logger subsystem acting on the shared
state, for the resource-accounting invariant. -/
inductive LoggerOp where
  | createConsole (colored ok : Bool)
  | createFile (fname : Str) (rotate : Bool) (size files : Nat) (ok : Bool)
  | createSyslog (ident : Str) (opt fac : Int) (efmt ok : Bool)
  | createNull (ok : Bool)
  | createMulti (console : Bool) (file : Str) (syslog ok1 ok2 ok3 ok4 : Bool)
  | initializeOp (cfg : ConfigData) (app dir : Str) (lvl : Int)
  | shutdown
  deriving Repr

/-- State effect of each operation. `shutdown` (logger.cpp lines 411-419)
calls `spdlog::shutdown()` and clears the default instance; neither
`g_sinkAllocationCount` nor `ms_allocationCount` is reset. -/
def applyOp : LoggerOp → LoggerWorld → LoggerWorld
  | .createConsole col ok, w =>
      { w with sinkCount := (CreateConsoleSink col ok w.sinkCount).2 }
  | .createFile fn r s f ok, w =>
      { w with sinkCount := (CreateFileSink fn r s f ok w.sinkCount).2 }
  | .createSyslog i o fa e ok, w =>
      { w with sinkCount := (CreateSyslogSink i o fa e ok w.sinkCount).2 }
  | .createNull ok, w =>
      { w with sinkCount := (CreateNullSink ok w.sinkCount).2 }
  | .createMulti c f s o1 o2 o3 o4, w =>
      { w with sinkCount := (CreateMultiSink c f s o1 o2 o3 o4 w.sinkCount).2 }
  | .initializeOp cfg a d l, w => (Initialize cfg w a d l).2
  | .shutdown, w => { w with registry := [], defaultSet := false }

/-- The combined two-level lookup: value stored under `key` in section
`sec`, ignoring fallback. -/
def sectionKeyVal (cfg : ConfigData) (sec key : Str) : Option Str :=
  (assocFind sec cfg).bind (assocFind key)

/-- C1 counterexample: with a table whose "global" section stores k ↦ v,
the claim requires GetString("", "k", "d") to return the global value "v"
(the key is absent from the section named "" and present in "global"), but
the parameter-validation branch of GetString returns the caller default. -/
theorem C1_counterexample :
    sectionKeyVal [(("global".toList), [(("k".toList), ("v".toList))])] [] ("k".toList) = none ∧
    sectionKeyVal [(("global".toList), [(("k".toList), ("v".toList))])] ("global".toList) ("k".toList)
      = some ("v".toList) ∧
    GetString [(("global".toList), [(("k".toList), ("v".toList))])] [] ("k".toList) ("d".toList)
      = ("d".toList) ∧
    ("d".toList) ≠ ("v".toList) := by
  decide

/-- C1 (amended): for every stored configuration table and every non-empty
section name and non-empty key, if the key is not present in the named
section but is present in "global", GetString returns the global value; if
present in neither, it returns the caller-supplied default. (When the
section or key name is empty, GetString returns the default regardless.) -/
theorem C1_global_fallback (cfg : ConfigData) (sec key dflt v : Str)
    (hs : sec ≠ []) (hk : key ≠ []) :
    (sectionKeyVal cfg sec key = none →
      sectionKeyVal cfg ("global".toList) key = some v →
      GetString cfg sec key dflt = v) ∧
    (sectionKeyVal cfg sec key = none →
      sectionKeyVal cfg ("global".toList) key = none →
      GetString cfg sec key dflt = dflt) := by
  unfold GetString sectionKeyVal
  rw [if_neg (by simp [hs, hk])]
  by_cases hg : sec = "global".toList
  · subst hg
    constructor
    · intro h1 h2
      rw [h1] at h2
      cases h2
    · intro h1 _
      rw [h1]
      simp
  · have hg' : sec ≠ (['g', 'l', 'o', 'b', 'a', 'l'] : Str) := hg
    constructor
    · intro h1 h2
      rw [h1, h2]
      simp [hg']
    · intro h1 h2
      rw [h1, h2]
      simp [hg']

/-- C1 witness: the fallback theorem applied to a concrete table. -/
theorem C1_global_fallback_witness :
    GetString [(("global".toList), [(("x".toList), ("y".toList))])]
      ("app".toList) ("x".toList) ("d".toList) = ("y".toList) :=
  (C1_global_fallback [(("global".toList), [(("x".toList), ("y".toList))])]
      ("app".toList) ("x".toList) ("d".toList) ("y".toList)
      (by decide) (by decide)).1 (by decide) (by decide)

/-- Lookup distributes over list append. -/
theorem assocFind_append {α : Type} (k : Str) (l₁ l₂ : List (Str × α)) :
    assocFind k (l₁ ++ l₂) =
      match assocFind k l₁ with
      | some v => some v
      | none => assocFind k l₂ := by
  induction l₁ with
  | nil => simp [assocFind]
  | cons p rest ih =>
    obtain ⟨k', v'⟩ := p
    by_cases h : k = k' <;> simp [assocFind, h, ih]

/-- Header lines are left unchanged by the whitespace trim. -/
theorem trimWS_hdr (n : Str) : trimWS (hdr n) = hdr n := by
  have h1 : (hdr n).dropWhile isTrimChar = hdr n := by
    simp [hdr, List.dropWhile_cons, isTrimChar]
  have h2 : (hdr n).reverse.dropWhile isTrimChar = (hdr n).reverse := by
    have : (hdr n).reverse = ']' :: (n.reverse ++ ['[']) := by
      simp [hdr]
    rw [this]
    simp [List.dropWhile_cons, isTrimChar]
  unfold trimWS
  rw [h1, h2, List.reverse_reverse]

/-- The section-header regex recognizes a bracketed name and extracts it. -/
theorem parseHeader_hdr (n : Str) : parseHeader (hdr n) = some n := by
  rw [show hdr n = '[' :: n.concat ']' by simp [hdr]]
  unfold parseHeader
  simp [List.getLast?_concat, List.dropLast_concat]

/-- Processing a run of pairwise-distinct fresh section headers: sections
are created until the table holds 32, then the next header aborts the load
with E_RESOURCE_UNAVAILABLE, leaving everything stored so far intact. -/
theorem loadLines_headers (names : List Str) (current : Str) (st : ConfigStore)
    (hcount : st.sectionCount = st.data.length)
    (hnodup : names.Nodup)
    (hnew : ∀ n ∈ names, assocFind n st.data = none)
    (hlen : 32 < st.data.length + names.length)
    (hle : st.data.length ≤ 32) :
    loadLines (names.map hdr) current st =
      (.E_RESOURCE_UNAVAILABLE,
       { data := st.data ++ (names.take (32 - st.data.length)).map (fun n => (n, [])),
         sectionCount := 32 }) := by
  induction names generalizing current st with
  | nil =>
    simp at hlen
    omega
  | cons a rest ih =>
    simp only [List.map_cons]
    rw [loadLines]
    rw [if_neg (by simp [hdr])]
    simp only [trimWS_hdr]
    rw [if_neg (by simp [hdr])]
    simp only [parseHeader_hdr]
    by_cases hcap : k_maxSections ≤ st.sectionCount
    · rw [if_pos hcap]
      simp only [k_maxSections] at hcap
      have hlen32 : st.data.length = 32 := by omega
      have h0 : 32 - st.data.length = 0 := by omega
      rw [h0]
      simp only [List.take_zero, List.map_nil, List.append_nil]
      cases st with
      | mk d c =>
        simp only at hcount hlen32 ⊢
        rw [hcount, hlen32]
    · rw [if_neg hcap]
      have hfresh : assocFind a st.data = none := hnew a (by simp)
      rw [hfresh]
      simp only [k_maxSections] at hcap
      have hlt : st.data.length < 32 := by omega
      have hlen' : 32 < st.data.length + 1 + rest.length := by
        simp at hlen
        omega
      have hrest := ih a
        { data := st.data ++ [(a, [])], sectionCount := st.sectionCount + 1 }
        (by simp [hcount])
        (List.Nodup.of_cons hnodup)
        (by
          intro n hn
          rw [assocFind_append, hnew n (by simp [hn])]
          have hna : n ≠ a := by
            rintro rfl
            exact (List.nodup_cons.mp hnodup).1 hn
          simp [assocFind, hna])
        (by simp; omega)
        (by simp; omega)
      rw [hrest]
      have hsub : 32 - st.data.length = (32 - (st.data.length + 1)) + 1 := by omega
      rw [hsub]
      simp [List.take_succ_cons, List.append_assoc]

/-- C2 (amended): counting the built-in "global" section, the store caps at
32 sections. Loading a file of pairwise-distinct non-"global" section
headers into a fresh store accepts exactly the first 31 headers and returns
E_RESOURCE_UNAVAILABLE upon encountering the 32nd; everything stored before
that point (here the prior "global" entries `gs`) remains intact — no
rollback. -/
theorem C2_section_cap (names : List Str) (gs : List (Str × Str))
    (hnodup : names.Nodup) (hg : ("global".toList) ∉ names)
    (hlen : 31 < names.length) :
    LoadFromFile (names.map hdr) (freshStore gs) =
      (.E_RESOURCE_UNAVAILABLE,
       { data := (("global".toList), gs) :: (names.take 31).map (fun n => (n, [])),
         sectionCount := 32 }) := by
  have h := loadLines_headers names ("global".toList) (freshStore gs)
    (by simp [freshStore])
    hnodup
    (by
      intro n hn
      have hng : n ≠ (['g', 'l', 'o', 'b', 'a', 'l'] : Str) := by
        intro he
        subst he
        exact hg hn
      simp [freshStore, assocFind, hng])
    (by simp [freshStore]; omega)
    (by simp [freshStore])
  unfold LoadFromFile
  rw [h]
  simp [freshStore]

/-- The 33 pairwise-distinct section names of the C2 test file. -/
def names33 : List Str :=
  (["a01", "a02", "a03", "a04", "a05", "a06", "a07", "a08", "a09", "a10",
    "a11", "a12", "a13", "a14", "a15", "a16", "a17", "a18", "a19", "a20",
    "a21", "a22", "a23", "a24", "a25", "a26", "a27", "a28", "a29", "a30",
    "a31", "a32", "a33"]).map String.toList

/-- C2 witness: the amended theorem applied to a file of 33 distinct
headers over a store whose "global" section already holds one entry. -/
theorem C2_section_cap_witness :
    LoadFromFile (names33.map hdr) (freshStore [(("k".toList), ("v".toList))]) =
      (.E_RESOURCE_UNAVAILABLE,
       { data := (("global".toList), [(("k".toList), ("v".toList))]) ::
           (names33.take 31).map (fun n => (n, [])),
         sectionCount := 32 }) :=
  C2_section_cap names33 [(("k".toList), ("v".toList))]
    (by decide) (by decide) (by decide)

/-- C2 counterexample: on a fresh store, a file with 33 distinct non-global
section headers does not get its first 32 headers accepted with the error
on the 33rd, as the claim states: the load stops at the 32nd header — the
32nd section of the file ("a32") is absent from the resulting store (the
31st is present), because the pre-existing "global" section already counts
toward the 32-section cap. -/
theorem C2_counterexample :
    (LoadFromFile (names33.map hdr) (freshStore [])).1 = .E_RESOURCE_UNAVAILABLE ∧
    assocFind ("a32".toList) (LoadFromFile (names33.map hdr) (freshStore [])).2.data = none ∧
    assocFind ("a31".toList) (LoadFromFile (names33.map hdr) (freshStore [])).2.data = some [] := by
  decide

set_option maxRecDepth 40000 in
/-- C3 counterexample: with a 100-character log directory and a
100-character application name, the length check of Initialize passes
(100 + 100 + 6 ≤ 255) and the call succeeds, yet the computed path
logDir/appName/appName.log is 306 characters long — the claim that every
computed path is at most 255 characters, with InvalidParameter otherwise,
is false because the check counts the application name only once while the
path contains it twice. -/
theorem C3_counterexample :
    (computeLogFilePath (List.replicate 100 'd') (List.replicate 100 'a')).map List.length
      = some 306 ∧
    (Initialize [(("global".toList), [])] ⟨0, [], 0, false⟩
        (List.replicate 100 'a') (List.replicate 100 'd') 2).1 = .E_SUCCESS := by
  decide

/-- C3 (amended): the bound Initialize verifies before building anything is
directory length + application-name length + 6 (separators and the ".log"
extension, the name counted once) ≤ 255; when that bound is exceeded it
returns E_INVALID_PARAMETER with the process state untouched, before any
sink or logger is created. The computed path itself has length
dirLen + 2·appLen + 6 and is not itself kept under 255. -/
theorem C3_path_bound (cfg : ConfigData) (w : LoggerWorld) (app dir : Str) (lvl : Int)
    (ha : app ≠ []) (hd : dir ≠ [])
    (hfile : GetBool cfg app ("file_output".toList) true = true)
    (hover : 255 < (GetString cfg ("global".toList) ("log_dir".toList) dir).length
                     + app.length + 6) :
    Initialize cfg w app dir lvl = (.E_INVALID_PARAMETER, w) ∧
    (∀ d a p, computeLogFilePath d a = some p →
      p.length = d.length + 2 * a.length + 6) := by
  constructor
  · unfold Initialize
    rw [if_neg (by simp [ha, hd])]
    simp only [hfile, if_true]
    unfold computeLogFilePath
    rw [if_pos (by omega)]
  · intro d a p hp
    unfold computeLogFilePath at hp
    by_cases hb : 255 < d.length + a.length + 4 + 2
    · rw [if_pos hb] at hp
      cases hp
    · rw [if_neg hb] at hp
      cases hp
      simp [List.length_append]
      omega

set_option maxRecDepth 40000 in
/-- C3 witness: the amended theorem applied to 150-character directory and
application names (150 + 150 + 6 > 255): Initialize rejects the call and
leaves the fresh state unchanged. -/
theorem C3_path_bound_witness :
    Initialize [(("global".toList), [])] ⟨0, [], 0, false⟩
      (List.replicate 150 'a') (List.replicate 150 'd') 2
      = (.E_INVALID_PARAMETER, ⟨0, [], 0, false⟩) :=
  (C3_path_bound [(("global".toList), [])] ⟨0, [], 0, false⟩
    (List.replicate 150 'a') (List.replicate 150 'd') 2
    (by decide) (by decide) (by decide) (by decide)).1

/-- buildSinksAndRegister always succeeds and leaves the application name
registered. -/
theorem buildSinks_success_mem (w : LoggerWorld) (app : Str) (uc us ucol : Bool)
    (fs fc : Int) (lp : Option Str) :
    (buildSinksAndRegister w app uc us ucol fs fc lp).1 = .E_SUCCESS ∧
    app ∈ (buildSinksAndRegister w app uc us ucol fs fc lp).2.registry := by
  unfold buildSinksAndRegister
  by_cases h : app ∈ w.registry
  · rw [if_pos h]
    exact ⟨rfl, h⟩
  · rw [if_neg h]
    exact ⟨rfl, List.mem_cons_self app w.registry⟩

/-- When the name is already registered, buildSinksAndRegister reuses the
existing logger: no sink is created, no counter moves, only the default
instance is (re)set. -/
theorem buildSinks_reuse (w : LoggerWorld) (app : Str) (uc us ucol : Bool)
    (fs fc : Int) (lp : Option Str) (h : app ∈ w.registry) :
    buildSinksAndRegister w app uc us ucol fs fc lp =
      (.E_SUCCESS, { w with defaultSet := true }) := by
  unfold buildSinksAndRegister
  rw [if_pos h]

/-- C4 (confirmed): after a successful Initialize for an application name,
that name is registered in the engine registry, and a second Initialize
with the same arguments finds it, reuses it, succeeds, and changes neither
the sink-allocation counter, nor the logger-allocation counter, nor the
registry (only the default-instance flag is re-asserted). -/
theorem C4_idempotent (cfg : ConfigData) (w w₁ : LoggerWorld) (app dir : Str) (lvl : Int)
    (h : Initialize cfg w app dir lvl = (.E_SUCCESS, w₁)) :
    app ∈ w₁.registry ∧
    Initialize cfg w₁ app dir lvl = (.E_SUCCESS, { w₁ with defaultSet := true }) ∧
    (Initialize cfg w₁ app dir lvl).2.sinkCount = w₁.sinkCount ∧
    (Initialize cfg w₁ app dir lvl).2.loggerAllocCount = w₁.loggerAllocCount ∧
    (Initialize cfg w₁ app dir lvl).2.registry = w₁.registry := by
  unfold Initialize at h ⊢
  by_cases he : app = [] ∨ dir = []
  · rw [if_pos he] at h
    simp at h
  · rw [if_neg he] at h ⊢
    by_cases hf : GetBool cfg app ("file_output".toList) true = true
    · rw [if_pos hf] at h ⊢
      cases hcp : computeLogFilePath (GetString cfg ("global".toList) ("log_dir".toList) dir) app with
      | none =>
        rw [hcp] at h
        simp at h
      | some p =>
        rw [hcp] at h
        have h2 : (buildSinksAndRegister w app (GetBool cfg app ("console_output".toList) true)
            (GetBool cfg app ("syslog_output".toList) false)
            (GetBool cfg app ("use_colors".toList) true)
            (GetInt32 cfg app ("max_file_size".toList) 10485760)
            (GetInt32 cfg app ("max_files".toList) 5) (some p)).2 = w₁ :=
          congrArg Prod.snd h
        have hmem : app ∈ w₁.registry := by
          rw [← h2]
          exact (buildSinks_success_mem w app _ _ _ _ _ (some p)).2
        have hre := buildSinks_reuse w₁ app
          (GetBool cfg app ("console_output".toList) true)
          (GetBool cfg app ("syslog_output".toList) false)
          (GetBool cfg app ("use_colors".toList) true)
          (GetInt32 cfg app ("max_file_size".toList) 10485760)
          (GetInt32 cfg app ("max_files".toList) 5) (some p) hmem
        exact ⟨hmem, hre, congrArg (fun x => x.2.sinkCount) hre,
          congrArg (fun x => x.2.loggerAllocCount) hre,
          congrArg (fun x => x.2.registry) hre⟩
    · rw [if_neg hf] at h ⊢
      have h2 : (buildSinksAndRegister w app (GetBool cfg app ("console_output".toList) true)
          (GetBool cfg app ("syslog_output".toList) false)
          (GetBool cfg app ("use_colors".toList) true)
          (GetInt32 cfg app ("max_file_size".toList) 10485760)
          (GetInt32 cfg app ("max_files".toList) 5) none).2 = w₁ :=
        congrArg Prod.snd h
      have hmem : app ∈ w₁.registry := by
        rw [← h2]
        exact (buildSinks_success_mem w app _ _ _ _ _ none).2
      have hre := buildSinks_reuse w₁ app
        (GetBool cfg app ("console_output".toList) true)
        (GetBool cfg app ("syslog_output".toList) false)
        (GetBool cfg app ("use_colors".toList) true)
        (GetInt32 cfg app ("max_file_size".toList) 10485760)
        (GetInt32 cfg app ("max_files".toList) 5) none hmem
      exact ⟨hmem, hre, congrArg (fun x => x.2.sinkCount) hre,
        congrArg (fun x => x.2.loggerAllocCount) hre,
        congrArg (fun x => x.2.registry) hre⟩

/-- C4 witness: after a first Initialize from a pristine state has created
two sinks and registered "svc", a second identical call succeeds and leaves
counters and registry untouched. -/
theorem C4_idempotent_witness :
    ("svc".toList) ∈ (⟨2, [("svc".toList)], 0, true⟩ : LoggerWorld).registry ∧
    Initialize [(("global".toList), [])] ⟨2, [("svc".toList)], 0, true⟩
      ("svc".toList) ("/var/log".toList) 2
      = (.E_SUCCESS, ⟨2, [("svc".toList)], 0, true⟩) := by
  have h := C4_idempotent [(("global".toList), [])] ⟨0, [], 0, false⟩
    ⟨2, [("svc".toList)], 0, true⟩ ("svc".toList) ("/var/log".toList) 2 (by decide)
  exact ⟨h.1, h.2.1⟩

/-- C5 (confirmed): at the 64-allocation cap every factory returns an
absent handle and leaves the counter unchanged; below the cap each call
either returns a valid handle and increments the counter by exactly one,
or returns an absent handle without incrementing when construction fails
(a thrown constructor, or for the file sink also an empty filename). -/
theorem C5_allocation_cap (count : Nat) (colored ok : Bool) (fname : Str)
    (rotate : Bool) (size files : Nat) (ident : Str) (o fa : Int) (efmt : Bool) :
    (k_maxSinkAllocations ≤ count →
      CreateConsoleSink colored ok count = (none, count) ∧
      CreateFileSink fname rotate size files ok count = (none, count) ∧
      CreateSyslogSink ident o fa efmt ok count = (none, count) ∧
      CreateNullSink ok count = (none, count)) ∧
    (count < k_maxSinkAllocations →
      (((CreateConsoleSink colored ok count).1.isSome ↔ ok = true) ∧
       (CreateConsoleSink colored ok count).2 = (if ok then count + 1 else count)) ∧
      (((CreateFileSink fname rotate size files ok count).1.isSome ↔ (ok = true ∧ fname ≠ [])) ∧
       (CreateFileSink fname rotate size files ok count).2 =
         (if ok = true ∧ fname ≠ [] then count + 1 else count)) ∧
      (((CreateSyslogSink ident o fa efmt ok count).1.isSome ↔ ok = true) ∧
       (CreateSyslogSink ident o fa efmt ok count).2 = (if ok then count + 1 else count)) ∧
      (((CreateNullSink ok count).1.isSome ↔ ok = true) ∧
       (CreateNullSink ok count).2 = (if ok then count + 1 else count))) := by
  constructor
  · intro hcap
    refine ⟨?_, ?_, ?_, ?_⟩
    · unfold CreateConsoleSink
      rw [if_pos hcap]
    · unfold CreateFileSink
      by_cases hfn : fname = []
      · rw [if_pos hfn]
      · rw [if_neg hfn, if_pos hcap]
    · unfold CreateSyslogSink
      rw [if_pos hcap]
    · unfold CreateNullSink
      rw [if_pos hcap]
  · intro hlt
    have hcap : ¬ k_maxSinkAllocations ≤ count := by omega
    refine ⟨⟨?_, ?_⟩, ⟨?_, ?_⟩, ⟨?_, ?_⟩, ⟨?_, ?_⟩⟩
    · unfold CreateConsoleSink
      rw [if_neg hcap]
      cases ok <;> simp
    · unfold CreateConsoleSink
      rw [if_neg hcap]
      cases ok <;> simp
    · unfold CreateFileSink
      by_cases hfn : fname = []
      · rw [if_pos hfn]
        cases ok <;> simp [hfn]
      · rw [if_neg hfn, if_neg hcap]
        cases ok <;> simp [hfn]
    · unfold CreateFileSink
      by_cases hfn : fname = []
      · rw [if_pos hfn]
        cases ok <;> simp [hfn]
      · rw [if_neg hfn, if_neg hcap]
        cases ok <;> simp [hfn]
    · unfold CreateSyslogSink
      rw [if_neg hcap]
      cases ok <;> simp
    · unfold CreateSyslogSink
      rw [if_neg hcap]
      cases ok <;> simp
    · unfold CreateNullSink
      rw [if_neg hcap]
      cases ok <;> simp
    · unfold CreateNullSink
      rw [if_neg hcap]
      cases ok <;> simp

/-- C5 witness: the cap theorem applied at the cap and just below it. -/
theorem C5_allocation_cap_witness :
    CreateConsoleSink true true 64 = (none, 64) ∧
    CreateNullSink true 64 = (none, 64) ∧
    (CreateConsoleSink true true 63).2 = 64 := by
  have hat := (C5_allocation_cap 64 true true [] true 0 0 [] 0 0 true).1 (by decide)
  have hbelow := (C5_allocation_cap 63 true true [] true 0 0 [] 0 0 true).2 (by decide)
  exact ⟨hat.1, hat.2.2.2, by rw [hbelow.1.2]; rfl⟩

/-- C6 (confirmed): on a logger with a live handle, every severity-logging
call rejects a null format pointer with E_INVALID_PARAMETER, rejects a
format string longer than 256 characters with E_INVALID_PARAMETER without
invoking the underlying engine, and maps an exception thrown by the engine
dispatch to E_UNKNOWN_ERROR instead of propagating it; each severity entry
point delegates to LogWithLocation at its level. -/
theorem C6_log_guards (level : E_LogLevel) (f : Str) (e : Bool) :
    LogWithLocation true level none e = (.E_INVALID_PARAMETER, false) ∧
    (k_maxMessageLength < f.length →
      LogWithLocation true level (some f) e = (.E_INVALID_PARAMETER, false)) ∧
    (f.length ≤ k_maxMessageLength → e = true →
      LogWithLocation true level (some f) e = (.E_UNKNOWN_ERROR, true)) ∧
    Trace true (some f) e = LogWithLocation true .E_TRACE (some f) e ∧
    Debug true (some f) e = LogWithLocation true .E_DEBUG (some f) e ∧
    Info true (some f) e = LogWithLocation true .E_INFO (some f) e ∧
    Warn true (some f) e = LogWithLocation true .E_WARN (some f) e ∧
    ErrorLog true (some f) e = LogWithLocation true .E_ERROR (some f) e ∧
    Critical true (some f) e = LogWithLocation true .E_CRITICAL (some f) e := by
  refine ⟨rfl, ?_, ?_, rfl, rfl, rfl, rfl, rfl, rfl⟩
  · intro hlong
    simp [LogWithLocation, hlong]
  · intro hshort he
    have hnl : ¬ k_maxMessageLength < f.length := Nat.not_lt.mpr hshort
    simp [LogWithLocation, hnl, he]

set_option maxRecDepth 40000 in
/-- C6 witness: a 257-character format string on a live logger is rejected
before dispatch. -/
theorem C6_log_guards_witness :
    LogWithLocation true .E_INFO (some (List.replicate 257 'x')) true
      = (.E_INVALID_PARAMETER, false) :=
  (C6_log_guards .E_INFO (List.replicate 257 'x') true).2.1 (by decide)

/-- C7 counterexample: GetPattern over format names is not total — the
empty input string returns the error E_INVALID_PARAMETER instead of
succeeding with a pattern. -/
theorem C7_counterexample :
    GetPatternName [] = .error .E_INVALID_PARAMETER := rfl

/-- C7 (amended): for every non-empty format name, GetPattern succeeds and
yields a pattern; every unrecognized non-empty name yields the built-in
default pattern, and in particular GetPattern("unknown-name") returns the
same pattern as GetPattern("default"). (The empty name alone returns
E_INVALID_PARAMETER.) -/
theorem C7_total_on_nonempty (s : Str) (hs : s ≠ []) :
    (∃ p, GetPatternName s = .ok p) ∧
    (s ∉ [("json".toList), ("console".toList), ("simple".toList),
          ("minimal".toList), ("colored".toList), ("detailed".toList)] →
      GetPatternName s = .ok (GetPatternType .E_DEFAULT).2 ∧
      GetPatternName s = GetPatternName ("default".toList)) := by
  constructor
  · unfold GetPatternName
    rw [if_neg hs]
    split_ifs <;> exact ⟨_, rfl⟩
  · intro hunk
    simp only [List.mem_cons, List.mem_singleton, not_or] at hunk
    obtain ⟨h1, h2, h3, h4, h5, h6, -⟩ := hunk
    constructor
    · unfold GetPatternName
      rw [if_neg hs, if_neg h1, if_neg h2, if_neg h3, if_neg h4, if_neg h5, if_neg h6]
      rfl
    · unfold GetPatternName
      rw [if_neg hs, if_neg h1, if_neg h2, if_neg h3, if_neg h4, if_neg h5, if_neg h6]
      rfl

/-- C7 witness: the unknown name of the claim yields the default pattern. -/
theorem C7_total_on_nonempty_witness :
    GetPatternName ("unknown-name".toList) = GetPatternName ("default".toList) :=
  ((C7_total_on_nonempty ("unknown-name".toList) (by decide)).2 (by decide)).2

/-- Closed form of ToJson without additional fields, for an arbitrary
timestamp and a non-empty component. -/
theorem ToJson_closed_form (message level component ts : Str)
    (hm : message ≠ []) (hl : level ≠ []) (hc : component ≠ []) :
    ToJson message level component [] ts =
      .ok (("\x7b\"timestamp\":\"").toList ++ ts ++ ("\",\"level\":\"").toList ++
           jsonEscapeString level ++ ("\",\"component\":\"").toList ++
           jsonEscapeString component ++ ("\",\"message\":\"").toList ++
           jsonEscapeString message ++ ("\"\x7d").toList) := by
  unfold ToJson
  rw [if_neg (by simp [hm, hl]), if_pos hc]
  simp only [List.append_assoc]
  rfl

/-- C8 counterexample: a newline in the message (a control character with
code 0x0a < 0x20) is escaped as the two-character sequence backslash-n, not
as the claimed `\u000a` sequence: the rendered JSON object contains no
`\u000a` at all. -/
theorem C8_counterexample :
    ToJson ("a\nb".toList) ("info".toList) ("X".toList) [] ("T".toList) =
      .ok (("\x7b\"timestamp\":\"T\",\"level\":\"info\",\"component\":\"X\",\"message\":\"a\\nb\"\x7d").toList) ∧
    ¬ (("\\u000a".toList) <:+:
        ("\x7b\"timestamp\":\"T\",\"level\":\"info\",\"component\":\"X\",\"message\":\"a\\nb\"\x7d").toList) := by
  exact ⟨rfl, by decide⟩

/-- C8 (amended): ToJson escapes quote, backslash, and control characters
in all string fields; control characters below 0x20 other than \n, \r, \t,
\b, \f (which use their conventional two-character escapes) map to \uXXXX
escapes; ToJson("a\"b", "info", "X") succeeds for every timestamp and
produces a single JSON object whose message field is a\"b with the quote
escaped and whose level/component fields equal "info"/"X". -/
theorem C8_escaping (c : Char) (ts : Str)
    (hctl : c.toNat < 32)
    (hn : c ∉ (['\n', '\r', '\t', '\x08', '\x0c'] : List Char)) :
    jsonEscapeChar '"' = ['\\', '"'] ∧
    jsonEscapeChar '\\' = ['\\', '\\'] ∧
    jsonEscapeChar c =
      ['\\', 'u', '0', '0', hexDigitChar (c.toNat / 16), hexDigitChar (c.toNat % 16)] ∧
    ToJson ("a\"b".toList) ("info".toList) ("X".toList) [] ts =
      .ok (("\x7b\"timestamp\":\"").toList ++ ts ++
           ("\",\"level\":\"info\",\"component\":\"X\",\"message\":\"a\\\"b\"\x7d").toList) := by
  refine ⟨rfl, rfl, ?_, ?_⟩
  · have hq : c ≠ '"' := by
      intro he
      rw [he] at hctl
      simp at hctl
    have hb : c ≠ '\\' := by
      intro he
      rw [he] at hctl
      simp at hctl
    simp only [List.mem_cons, List.not_mem_nil, or_false, not_or] at hn
    obtain ⟨h1, h2, h3, h4, h5⟩ := hn
    unfold jsonEscapeChar
    rw [if_neg hq, if_neg hb, if_neg h1, if_neg h2, if_neg h3, if_neg h4, if_neg h5,
      if_pos hctl]
  · rw [ToJson_closed_form ("a\"b".toList) ("info".toList) ("X".toList) ts
      (by decide) (by decide) (by decide)]
    simp only [List.append_assoc]
    rfl

/-- C8 witness: the escaping theorem applied at the control character 0x01
and a concrete timestamp. -/
theorem C8_escaping_witness :
    jsonEscapeChar '\x01' =
      ['\\', 'u', '0', '0', hexDigitChar ('\x01'.toNat / 16), hexDigitChar ('\x01'.toNat % 16)] ∧
    ToJson ("a\"b".toList) ("info".toList) ("X".toList) [] ("T".toList) =
      .ok (("\x7b\"timestamp\":\"").toList ++ ("T".toList) ++
           ("\",\"level\":\"info\",\"component\":\"X\",\"message\":\"a\\\"b\"\x7d").toList) :=
  ⟨(C8_escaping '\x01' ("T".toList) (by decide) (by decide)).2.2.1,
   (C8_escaping '\x01' ("T".toList) (by decide) (by decide)).2.2.2⟩

/-- CreateConsoleSink never decreases the allocation counter. -/
theorem consoleSink_count_le (col ok : Bool) (c : Nat) :
    c ≤ (CreateConsoleSink col ok c).2 := by
  unfold CreateConsoleSink
  split_ifs <;> simp

/-- CreateFileSink never decreases the allocation counter. -/
theorem fileSink_count_le (fn : Str) (r : Bool) (s f : Nat) (ok : Bool) (c : Nat) :
    c ≤ (CreateFileSink fn r s f ok c).2 := by
  unfold CreateFileSink
  split_ifs <;> simp

/-- CreateSyslogSink never decreases the allocation counter. -/
theorem syslogSink_count_le (i : Str) (o fa : Int) (e ok : Bool) (c : Nat) :
    c ≤ (CreateSyslogSink i o fa e ok c).2 := by
  unfold CreateSyslogSink
  split_ifs <;> simp

/-- CreateNullSink never decreases the allocation counter. -/
theorem nullSink_count_le (ok : Bool) (c : Nat) :
    c ≤ (CreateNullSink ok c).2 := by
  unfold CreateNullSink
  split_ifs <;> simp

/-- A guarded factory call never decreases the counter. -/
theorem ifSink_count_le (P : Prop) [Decidable P] (F : Nat → Option Sink × Nat)
    (hF : ∀ n, n ≤ (F n).2) (c : Nat) :
    c ≤ (if P then F c else (none, c)).2 := by
  split_ifs with h
  · exact hF c
  · exact le_refl c

/-- CreateMultiSink never decreases the allocation counter. -/
theorem multiSink_count_le (console : Bool) (logFile : Str) (syslog : Bool)
    (o1 o2 o3 o4 : Bool) (c : Nat) :
    c ≤ (CreateMultiSink console logFile syslog o1 o2 o3 o4 c).2 := by
  have h1 := ifSink_count_le (console = true) (CreateConsoleSink true o1)
    (consoleSink_count_le true o1) c
  have h2 := ifSink_count_le (logFile ≠ []) (CreateFileSink logFile false 0 1 o2)
    (fileSink_count_le logFile false 0 1 o2)
    ((if console = true then CreateConsoleSink true o1 c else (none, c)).2)
  have h3 := ifSink_count_le (syslog = true)
    (CreateSyslogSink ("vsnlogger".toList) 0 0 true o3)
    (syslogSink_count_le ("vsnlogger".toList) 0 0 true o3)
    ((if logFile ≠ [] then CreateFileSink logFile false 0 1 o2
        ((if console = true then CreateConsoleSink true o1 c else (none, c)).2)
      else (none, (if console = true then CreateConsoleSink true o1 c else (none, c)).2)).2)
  refine le_trans h1 (le_trans h2 (le_trans h3 ?_))
  exact ifSink_count_le _ (CreateConsoleSink true o4) (consoleSink_count_le true o4) _

/-- buildSinksAndRegister never decreases the allocation counter. -/
theorem buildSinks_count_le (w : LoggerWorld) (app : Str) (uc us ucol : Bool)
    (fs fc : Int) (lp : Option Str) :
    w.sinkCount ≤ (buildSinksAndRegister w app uc us ucol fs fc lp).2.sinkCount := by
  unfold buildSinksAndRegister
  by_cases hmem : app ∈ w.registry
  · rw [if_pos hmem]
  · rw [if_neg hmem]
    have h1 := ifSink_count_le (uc = true) (CreateConsoleSink ucol true)
      (consoleSink_count_le ucol true) w.sinkCount
    cases lp with
    | none =>
      have h3 := ifSink_count_le (us = true)
        (CreateSyslogSink ("vsnlogger".toList) 0 0 true true)
        (syslogSink_count_le ("vsnlogger".toList) 0 0 true true)
        ((if uc = true then CreateConsoleSink ucol true w.sinkCount
          else (none, w.sinkCount)).2)
      refine le_trans h1 (le_trans h3 ?_)
      exact ifSink_count_le _ (CreateConsoleSink ucol true)
        (consoleSink_count_le ucol true) _
    | some p =>
      have h2 := ifSink_count_le (p ≠ [])
        (CreateFileSink p true ((fs % (2 : Int) ^ 64).toNat) ((fc % (2 : Int) ^ 64).toNat) true)
        (fileSink_count_le p true ((fs % (2 : Int) ^ 64).toNat) ((fc % (2 : Int) ^ 64).toNat) true)
        ((if uc = true then CreateConsoleSink ucol true w.sinkCount
          else (none, w.sinkCount)).2)
      have h3 := ifSink_count_le (us = true)
        (CreateSyslogSink ("vsnlogger".toList) 0 0 true true)
        (syslogSink_count_le ("vsnlogger".toList) 0 0 true true)
        ((if p ≠ [] then CreateFileSink p true ((fs % (2 : Int) ^ 64).toNat)
            ((fc % (2 : Int) ^ 64).toNat) true
            ((if uc = true then CreateConsoleSink ucol true w.sinkCount
              else (none, w.sinkCount)).2)
          else (none, (if uc = true then CreateConsoleSink ucol true w.sinkCount
              else (none, w.sinkCount)).2)).2)
      refine le_trans h1 (le_trans h2 (le_trans h3 ?_))
      exact ifSink_count_le _ (CreateConsoleSink ucol true)
        (consoleSink_count_le ucol true) _

/-- Initialize never decreases the allocation counter. -/
theorem Initialize_count_le (cfg : ConfigData) (w : LoggerWorld) (app dir : Str)
    (lvl : Int) :
    w.sinkCount ≤ (Initialize cfg w app dir lvl).2.sinkCount := by
  unfold Initialize
  by_cases he : app = [] ∨ dir = []
  · rw [if_pos he]
  · rw [if_neg he]
    by_cases hf : GetBool cfg app ("file_output".toList) true = true
    · rw [if_pos hf]
      cases hcp : computeLogFilePath (GetString cfg ("global".toList) ("log_dir".toList) dir) app with
      | none => exact le_refl _
      | some p => exact buildSinks_count_le w app _ _ _ _ _ (some p)
    · rw [if_neg hf]
      exact buildSinks_count_le w app _ _ _ _ _ none

/-- C9 (confirmed): no sink-factory or logger operation other than explicit
shutdown ever decreases the process-wide sink allocation counter — every
operation leaves it unchanged or increments it, so along any operation
sequence the counter is monotonically non-decreasing away from Shutdown. -/
theorem C9_monotonic (w : LoggerWorld) (op : LoggerOp) (h : op ≠ .shutdown) :
    w.sinkCount ≤ (applyOp op w).sinkCount := by
  cases op with
  | createConsole col ok => exact consoleSink_count_le col ok w.sinkCount
  | createFile fn r s f ok => exact fileSink_count_le fn r s f ok w.sinkCount
  | createSyslog i o fa e ok => exact syslogSink_count_le i o fa e ok w.sinkCount
  | createNull ok => exact nullSink_count_le ok w.sinkCount
  | createMulti c f s o1 o2 o3 o4 => exact multiSink_count_le c f s o1 o2 o3 o4 w.sinkCount
  | initializeOp cfg a d l => exact Initialize_count_le cfg w a d l
  | shutdown => exact absurd rfl h

/-- C9 witness: the invariant applied to a console-sink creation on a
pristine state. -/
theorem C9_monotonic_witness :
    (⟨0, [], 0, false⟩ : LoggerWorld).sinkCount ≤
      (applyOp (.createConsole true true) ⟨0, [], 0, false⟩).sinkCount :=
  C9_monotonic ⟨0, [], 0, false⟩ (.createConsole true true)
    (fun hco => LoggerOp.noConfusion hco)

/-- C10 (confirmed): below the allocation cap with a non-empty filename and
a non-throwing constructor, CreateFileSink increments the counter and, for
a rotating sink, applies the normalized limits: maxSize 0 becomes 10485760
and is clamped to 1073741824, maxFiles 0 becomes 5 and is clamped to 100,
values already in range pass through; an empty filename always yields an
absent handle without touching the counter. -/
theorem C10_file_limits (fname : Str) (rotate : Bool) (size files c c' : Nat)
    (ok : Bool) (hc : c < k_maxSinkAllocations) (hf : fname ≠ []) :
    CreateFileSink fname rotate size files true c =
      (some (if rotate then Sink.rotatingFile (normMaxSize size) (normMaxFiles files)
             else Sink.basicFile), c + 1) ∧
    normMaxSize 0 = 10485760 ∧
    normMaxFiles 0 = 5 ∧
    (1073741824 < size → normMaxSize size = 1073741824) ∧
    (100 < files → normMaxFiles files = 100) ∧
    (size ≠ 0 → size ≤ 1073741824 → normMaxSize size = size) ∧
    (files ≠ 0 → files ≤ 100 → normMaxFiles files = files) ∧
    CreateFileSink [] rotate size files ok c' = (none, c') := by
  refine ⟨?_, rfl, rfl, ?_, ?_, ?_, ?_, ?_⟩
  · unfold CreateFileSink
    rw [if_neg hf, if_neg (show ¬ k_maxSinkAllocations ≤ c from by omega)]
    simp
  · intro h
    simp only [normMaxSize]
    rw [if_neg (show ¬ size = 0 from by omega), if_pos h]
  · intro h
    simp only [normMaxFiles]
    rw [if_neg (show ¬ files = 0 from by omega), if_pos h]
  · intro h1 h2
    simp only [normMaxSize]
    rw [if_neg h1, if_neg (by omega)]
  · intro h1 h2
    simp only [normMaxFiles]
    rw [if_neg h1, if_neg (by omega)]
  · unfold CreateFileSink
    rw [if_pos rfl]

/-- C10 witness: a rotating sink requested with maxSize 0 and maxFiles 200
is built with the defaulted and clamped limits (10485760, 100); the empty
filename yields no sink and an unchanged counter. -/
theorem C10_file_limits_witness :
    CreateFileSink ("a.log".toList) true 0 200 true 0 =
      (some (.rotatingFile 10485760 100), 1) ∧
    CreateFileSink [] true 0 200 true 7 = (none, 7) := by
  have h := C10_file_limits ("a.log".toList) true 0 200 0 7 true (by decide) (by decide)
  refine ⟨?_, h.2.2.2.2.2.2.2⟩
  rw [h.1]
  decide
